import Mathlib

/-!
# Verification of the vnids daemon against its specification

Shallow embedding of the vnids daemon (supervisor, ingest parser, event
queue, bounded store, control plane) in Lean 4, with proofs of the
specification claims C1..C10.

Conventions:
* C integers are modelled as `Nat`/`Int`; unsigned narrowing casts are
  explicit `% 2^w` operations.
* C enums are modelled as `Nat` constants carrying the C values.
* Parsed cJSON documents are modelled by the inductive `Json`; a JSON
  object is an ordered field list, and `cJSON_GetObjectItem` performs the
  case-insensitive lookup that cJSON implements.
* Fallible C functions returning `0`/`-1` are modelled with `Option`.
-/

namespace Vnids

/-- A parsed JSON document (the result of a successful cJSON_Parse).
Numbers are modelled as integers: every numeric field of the daemon is
read through an integer cast of the cJSON double. -/
inductive Json where
  | jnull : Json
  | jbool : Bool → Json
  | jnum : Int → Json
  | jstr : String → Json
  | jarr : List Json → Json
  | jobj : List (String × Json) → Json
deriving Repr

/-- Case-insensitive string comparison (C strcasecmp == 0),
character by character as the byte-wise tolower comparison does. -/
def strCaseEq (a b : String) : Bool :=
  a.toList.map Char.toLower == b.toList.map Char.toLower

/-- Find the first field with the given name, case-insensitively,
as cJSON object lookup does. -/
def findField : List (String × Json) → String → Option Json
  | [], _ => none
  | (k, v) :: rest, key => if strCaseEq k key then some v else findField rest key

/-- cJSON_GetObjectItem: field lookup on an object, none otherwise. -/
def cJSON_GetObjectItem : Json → String → Option Json
  | Json.jobj fields, key => findField fields key
  | _, _ => none

/-- get_string helper from the EVE parser: the item must exist and be a
JSON string. -/
def get_string (obj : Json) (key : String) : Option String :=
  match cJSON_GetObjectItem obj key with
  | some (Json.jstr s) => some s
  | _ => none

/-- get_int helper from the EVE parser: the item must exist and be a
number, otherwise the default is returned. -/
def get_int (obj : Json) (key : String) (dflt : Int) : Int :=
  match cJSON_GetObjectItem obj key with
  | some (Json.jnum n) => n
  | _ => dflt

/-- C cast to uint16_t: reduce the mathematical value mod 2^16. -/
def cast_u16 (i : Int) : Nat := (i % 65536).toNat

/-- C cast to uint32_t: reduce the mathematical value mod 2^32. -/
def cast_u32 (i : Int) : Nat := (i % 4294967296).toNat

/- Severity levels (vnids_severity_t, values match Suricata priorities). -/

def VNIDS_SEVERITY_CRITICAL : Nat := 1
def VNIDS_SEVERITY_HIGH : Nat := 2
def VNIDS_SEVERITY_MEDIUM : Nat := 3
def VNIDS_SEVERITY_LOW : Nat := 4
def VNIDS_SEVERITY_INFO : Nat := 5

/- Event types (vnids_event_type_t). -/

def VNIDS_EVENT_ALERT : Nat := 0
def VNIDS_EVENT_ANOMALY : Nat := 1
def VNIDS_EVENT_FLOW : Nat := 2
def VNIDS_EVENT_STATS : Nat := 3

/- Protocol discriminators (vnids_protocol_t). -/

def VNIDS_PROTO_UNKNOWN : Nat := 0
def VNIDS_PROTO_TCP : Nat := 1
def VNIDS_PROTO_UDP : Nat := 2
def VNIDS_PROTO_ICMP : Nat := 3
def VNIDS_PROTO_IGMP : Nat := 4
def VNIDS_PROTO_SOMEIP : Nat := 10
def VNIDS_PROTO_DOIP : Nat := 11
def VNIDS_PROTO_GBT32960 : Nat := 12
def VNIDS_PROTO_HTTP : Nat := 20
def VNIDS_PROTO_TLS : Nat := 21
def VNIDS_PROTO_DNS : Nat := 22
def VNIDS_PROTO_MQTT : Nat := 23
def VNIDS_PROTO_FTP : Nat := 24
def VNIDS_PROTO_TELNET : Nat := 25

/-- The closed set of protocol enumeration values in vnids_types.h. -/
def protocolEnumValues : List Nat := [0, 1, 2, 3, 4, 10, 11, 12, 20, 21, 22, 23, 24, 25]

/-- Security event record (vnids_security_event_t).  The C struct is
memset to zero before parsing; the default field values model that.
String fields are null-terminated char arrays of the given capacities:
src/dst 46 bytes, message 256 bytes. -/
structure SecurityEvent where
  id : String := ""
  event_type : Nat := 0
  severity : Nat := 0
  protocol : Nat := 0
  ts_sec : Int := 0
  ts_usec : Nat := 0
  src_addr : String := ""
  dst_addr : String := ""
  src_port : Nat := 0
  dst_port : Nat := 0
  rule_sid : Nat := 0
  rule_gid : Nat := 0
  message : String := ""
deriving Repr, DecidableEq

/-- safe_strcpy: copy at most dest_size-1 characters, always
null-terminated; a NULL source yields the empty string. -/
def safe_strcpy (dest_size : Nat) (src : Option String) : String :=
  match src with
  | none => ""
  | some s => String.mk (s.toList.take (dest_size - 1))

/-- parse_severity: Suricata priority to severity enum. -/
def parse_severity (priority : Int) : Nat :=
  if priority = 1 then VNIDS_SEVERITY_CRITICAL
  else if priority = 2 then VNIDS_SEVERITY_HIGH
  else if priority = 3 then VNIDS_SEVERITY_MEDIUM
  else if priority = 4 then VNIDS_SEVERITY_LOW
  else VNIDS_SEVERITY_INFO

/-- The transport-protocol fallthrough of parse_protocol: the proto
string is matched case-insensitively, anything else defaults to TCP. -/
def parse_transport : Option String → Nat
  | some s =>
      if strCaseEq s "TCP" then VNIDS_PROTO_TCP
      else if strCaseEq s "UDP" then VNIDS_PROTO_UDP
      else if strCaseEq s "ICMP" then VNIDS_PROTO_ICMP
      else if strCaseEq s "IGMP" then VNIDS_PROTO_IGMP
      else VNIDS_PROTO_TCP
  | none => VNIDS_PROTO_TCP

/-- parse_protocol: the application protocol wins when recognized,
otherwise fall through to the transport protocol. -/
def parse_protocol (proto_str : Option String) (app_proto_str : Option String) : Nat :=
  match app_proto_str with
  | some s =>
      if strCaseEq s "http" then VNIDS_PROTO_HTTP
      else if strCaseEq s "tls" then VNIDS_PROTO_TLS
      else if strCaseEq s "dns" then VNIDS_PROTO_DNS
      else if strCaseEq s "mqtt" then VNIDS_PROTO_MQTT
      else if strCaseEq s "ftp" then VNIDS_PROTO_FTP
      else if strCaseEq s "someip" then VNIDS_PROTO_SOMEIP
      else if strCaseEq s "doip" then VNIDS_PROTO_DOIP
      else parse_transport proto_str
  | none => parse_transport proto_str

/-- The application-protocol strings that parse_protocol recognizes
(used to state when the app_proto match falls through). -/
def app_proto_recognized (s : String) : Bool :=
  strCaseEq s "http" || strCaseEq s "tls" || strCaseEq s "dns" || strCaseEq s "mqtt" ||
  strCaseEq s "ftp" || strCaseEq s "someip" || strCaseEq s "doip"

/-- The transport-protocol strings that parse_protocol recognizes. -/
def transport_recognized (s : String) : Bool :=
  strCaseEq s "TCP" || strCaseEq s "UDP" || strCaseEq s "ICMP" || strCaseEq s "IGMP"

/-- parse_alert_event: requires the alert subobject; sid defaults to 0,
gid to 1, severity to priority 4 (Low), signature to the empty string. -/
def parse_alert_event (root : Json) (event : SecurityEvent) : Option SecurityEvent :=
  let event := { event with event_type := VNIDS_EVENT_ALERT }
  match cJSON_GetObjectItem root "alert" with
  | none => none
  | some alert =>
      some { event with
        rule_sid := cast_u32 (get_int alert "signature_id" 0),
        rule_gid := cast_u32 (get_int alert "gid" 1),
        severity := parse_severity (get_int alert "severity" 4),
        message := safe_strcpy 256 (get_string alert "signature") }

/-- parse_anomaly_event: severity is fixed Medium; the message comes
from anomaly.type when present. -/
def parse_anomaly_event (root : Json) (event : SecurityEvent) : SecurityEvent :=
  let event := { event with
    event_type := VNIDS_EVENT_ANOMALY,
    severity := VNIDS_SEVERITY_MEDIUM }
  match cJSON_GetObjectItem root "anomaly" with
  | none => event
  | some anomaly =>
      let t := get_string anomaly "type"
      { event with
        message := safe_strcpy 256 (some (match t with
          | some s => s
          | none => "Network anomaly detected")) }

/-- parse_flow_fields: common endpoints and protocol of every event. -/
def parse_flow_fields (root : Json) (event : SecurityEvent) : SecurityEvent :=
  { event with
    src_addr := safe_strcpy 46 (get_string root "src_ip"),
    dst_addr := safe_strcpy 46 (get_string root "dest_ip"),
    src_port := cast_u16 (get_int root "src_port" 0),
    dst_port := cast_u16 (get_int root "dest_port" 0),
    protocol := parse_protocol (get_string root "proto") (get_string root "app_proto") }

/-- SOME/IP metadata subobject (vnids_someip_metadata_t). -/
structure SomeipMetadata where
  service_id : Nat := 0
  method_id : Nat := 0
  client_id : Nat := 0
  session_id : Nat := 0
  message_type : Nat := 0
  return_code : Nat := 0
deriving Repr, DecidableEq

/-- parse_someip_metadata: all-zero when the subobject is absent. -/
def parse_someip_metadata (root : Json) : SomeipMetadata :=
  match cJSON_GetObjectItem root "someip" with
  | none => {}
  | some someip =>
      { service_id := cast_u16 (get_int someip "service_id" 0),
        method_id := cast_u16 (get_int someip "method_id" 0),
        client_id := cast_u16 (get_int someip "client_id" 0),
        session_id := cast_u16 (get_int someip "session_id" 0),
        message_type := (get_int someip "message_type" 0 % 256).toNat,
        return_code := (get_int someip "return_code" 0 % 256).toNat }

/-- DoIP metadata subobject (vnids_doip_metadata_t). -/
structure DoipMetadata where
  source_address : Nat := 0
  target_address : Nat := 0
  payload_type : Nat := 0
deriving Repr, DecidableEq

/-- parse_doip_metadata: all-zero when the subobject is absent. -/
def parse_doip_metadata (root : Json) : DoipMetadata :=
  match cJSON_GetObjectItem root "doip" with
  | none => {}
  | some doip =>
      { source_address := cast_u16 (get_int doip "source_address" 0),
        target_address := cast_u16 (get_int doip "target_address" 0),
        payload_type := cast_u16 (get_int doip "payload_type" 0) }

/-- Read a run of decimal digits from the front of a character list. -/
def readDigits : List Char → (List Char × List Char)
  | [] => ([], [])
  | c :: rest =>
      if c.isDigit then
        let (ds, rem) := readDigits rest
        (c :: ds, rem)
      else ([], c :: rest)

/-- Expect a literal character at the front of the list. -/
def expectChar (c : Char) : List Char → Option (List Char)
  | [] => none
  | x :: rest => if x = c then some rest else none

/-- Decimal value of a digit list. -/
def digitsToNat (ds : List Char) : Nat :=
  ds.foldl (fun acc c => acc * 10 + (c.toNat - 48)) 0

/-- Days since the Unix epoch of a civil date (used to model mktime;
the daemon converts the broken-down time with mktime, modelled here as a
UTC epoch conversion). -/
def daysFromCivil (y m d : Int) : Int :=
  let y := if m ≤ 2 then y - 1 else y
  let era : Int := (if y ≥ 0 then y else y - 399) / 400
  let yoe : Int := y - era * 400
  let mp : Int := (m + 9) % 12
  let doy : Int := (153 * mp + 2) / 5 + d - 1
  let doe : Int := yoe * 365 + yoe / 4 - yoe / 100 + doy
  era * 146097 + doe - 719468

/-- parse_timestamp: strptime with format %Y-%m-%dT%H:%M:%S, then an
optional fractional part of up to six digits, zero-padded on the right
(as the C copy into the "000000" buffer does).  Returns none exactly
when strptime fails. -/
def parse_timestamp (s : String) : Option (Int × Nat) := do
  let cs := s.toList
  let (ys, cs) := readDigits cs
  if ys.isEmpty then none else
  let cs ← expectChar '-' cs
  let (ms, cs) := readDigits cs
  if ms.isEmpty then none else
  let cs ← expectChar '-' cs
  let (ds, cs) := readDigits cs
  if ds.isEmpty then none else
  let cs ← expectChar 'T' cs
  let (hs, cs) := readDigits cs
  if hs.isEmpty then none else
  let cs ← expectChar ':' cs
  let (mins, cs) := readDigits cs
  if mins.isEmpty then none else
  let cs ← expectChar ':' cs
  let (ss, cs) := readDigits cs
  if ss.isEmpty then none else
  let sec : Int :=
    daysFromCivil (digitsToNat ys) (digitsToNat ms) (digitsToNat ds) * 86400
      + digitsToNat hs * 3600 + digitsToNat mins * 60 + digitsToNat ss
  let usec : Nat :=
    match cs with
    | '.' :: frac =>
        let digits := (readDigits frac).1.take 6
        digitsToNat (digits ++ List.replicate (6 - digits.length) '0')
    | _ => 0
  some (sec, usec)

/-- The type-specific dispatch of vnids_eve_parse: alert and anomaly
are parsed, flow and stats are skipped on the event path, and an
unknown event_type is tried as an alert when an alert subobject is
present. -/
def eve_parse_dispatch (root : Json) (event_type : String) (event : SecurityEvent) :
    Option SecurityEvent :=
  if event_type = "alert" then
    parse_alert_event root event
  else if event_type = "anomaly" then
    some (parse_anomaly_event root event)
  else if event_type = "flow" then
    none
  else if event_type = "stats" then
    none
  else
    match cJSON_GetObjectItem root "alert" with
    | some _ => parse_alert_event root event
    | none => none

/-- The protocol promotions run on a successfully parsed event: a
nonzero SOME/IP service id, then a nonzero DoIP payload type, promote
the protocol discriminator. -/
def eve_parse_promote (root : Json) (event : SecurityEvent) : SecurityEvent :=
  let someip_meta := parse_someip_metadata root
  let event :=
    if someip_meta.service_id ≠ 0 then
      { event with protocol := VNIDS_PROTO_SOMEIP }
    else event
  let doip_meta := parse_doip_metadata root
  if doip_meta.payload_type ≠ 0 then
    { event with protocol := VNIDS_PROTO_DOIP }
  else event

/-- The body of vnids_eve_parse after the timestamp step: event-type
dispatch over the flow fields, then the protocol promotions on
success. -/
def vnids_eve_parse_core (root : Json) (event : SecurityEvent) : Option SecurityEvent :=
  match get_string root "event_type" with
  | none => none
  | some event_type =>
      let event := parse_flow_fields root event
      match eve_parse_dispatch root event_type event with
      | none => none
      | some event => some (eve_parse_promote root event)

/-- vnids_eve_parse: parse one EVE JSON document into a security event.
none models the -1 return (line dropped).  The input is the cJSON value
of an already syntactically valid line; the struct starts zeroed, then
the timestamp is filled in when present and parseable. -/
def vnids_eve_parse (root : Json) : Option SecurityEvent :=
  let event : SecurityEvent := {}
  let event :=
    match get_string root "timestamp" with
    | some ts =>
        match parse_timestamp ts with
        | some (sec, usec) => { event with ts_sec := sec, ts_usec := usec }
        | none => event
    | none => event
  vnids_eve_parse_core root event

/-- C cast to uint64_t. -/
def cast_u64 (i : Int) : Nat := (i % 18446744073709551616).toNat

/-- The statistics snapshot fields filled by the EVE stats parser
(vnids_stats_t; the remaining counters stay zeroed). -/
structure SuricataStats where
  uptime_seconds : Nat := 0
  packets_captured : Nat := 0
  packets_dropped : Nat := 0
  bytes_captured : Nat := 0
  alerts_total : Nat := 0
  flows_active : Nat := 0
  memory_used_mb : Nat := 0
deriving Repr, DecidableEq

/-- vnids_eve_parse_stats: accepts only event_type "stats" with a stats
subobject, pulling counters out of its nested sections. -/
def vnids_eve_parse_stats (root : Json) : Option SuricataStats :=
  match get_string root "event_type" with
  | none => none
  | some event_type =>
      if event_type ≠ "stats" then none
      else
        match cJSON_GetObjectItem root "stats" with
        | none => none
        | some stats_obj =>
            let stats : SuricataStats := {}
            let stats :=
              match cJSON_GetObjectItem stats_obj "capture" with
              | some capture =>
                  { stats with
                    packets_captured := cast_u64 (get_int capture "kernel_packets" 0),
                    packets_dropped := cast_u64 (get_int capture "kernel_drops" 0) }
              | none => stats
            let stats :=
              match cJSON_GetObjectItem stats_obj "decoder" with
              | some decoder =>
                  { stats with bytes_captured := cast_u64 (get_int decoder "bytes" 0) }
              | none => stats
            let stats :=
              match cJSON_GetObjectItem stats_obj "detect" with
              | some detect =>
                  { stats with alerts_total := cast_u64 (get_int detect "alert" 0) }
              | none => stats
            let stats :=
              match cJSON_GetObjectItem stats_obj "flow_mgr" with
              | some flow_mgr =>
                  { stats with flows_active := cast_u32 (get_int flow_mgr "flows_active" 0) }
              | none => stats
            let stats :=
              match cJSON_GetObjectItem stats_obj "flow" with
              | some memcap =>
                  { stats with
                    memory_used_mb :=
                      cast_u64 (get_int memcap "memuse" 0) / 1048576 % 4294967296 }
              | none => stats
            some { stats with uptime_seconds := cast_u64 (get_int stats_obj "uptime" 0) }

/-!
## Event queue (event_queue.c, Vyukov MPSC queue)

The sequential functional model of the queue: the linked list of nodes
behind the stub is the list `items` (front = consumer side), and the
atomic current_size counter always equals its length in any quiescent
state.  Node allocation is assumed to succeed (the malloc-failure branch
also counts a drop but is an out-of-memory condition outside the model).
-/

/-- Event queue state (vnids_event_queue_t). -/
structure EventQueue where
  items : List SecurityEvent
  max_size : Nat
  enqueue_count : Nat
  dequeue_count : Nat
  drop_count : Nat
deriving Repr, DecidableEq

/-- vnids_event_queue_push: refuse with -1 and count a drop when the
size counter has reached capacity, else link a node holding a copy of
the event.  Result 0 models success. -/
def vnids_event_queue_push (q : EventQueue) (e : SecurityEvent) : EventQueue × Int :=
  if q.items.length ≥ q.max_size then
    ({ q with drop_count := q.drop_count + 1 }, -1)
  else
    ({ q with
        items := q.items ++ [e],
        enqueue_count := q.enqueue_count + 1 }, 0)

/-- vnids_event_queue_pop: consumer side; none models the -1 return on
an empty queue. -/
def vnids_event_queue_pop (q : EventQueue) : Option (EventQueue × SecurityEvent) :=
  match q.items with
  | [] => none
  | e :: rest =>
      some ({ q with items := rest, dequeue_count := q.dequeue_count + 1 }, e)

/-!
## Event dispatcher callback filtering (event_queue.c, event handler part)
-/

/-- A registered callback entry (vnids_callback_entry_t); the callback
function itself is identified only by its filter data here. -/
structure CallbackEntry where
  event_type_filter : Nat
  min_severity : Nat
deriving Repr, DecidableEq

/-- event_matches_filter: type filter 0 means any type; an event passes
the severity filter iff its severity value is at most min_severity
(numerically higher severity values are less severe). -/
def event_matches_filter (event : SecurityEvent) (entry : CallbackEntry) : Bool :=
  if entry.event_type_filter ≠ 0 ∧ entry.event_type_filter ≠ event.event_type then
    false
  else if event.severity > entry.min_severity then
    false
  else
    true

/-- dispatch_to_callbacks: the sublist of registered entries whose
callback is invoked on the event, in registration order. -/
def dispatch_to_callbacks (entries : List CallbackEntry) (event : SecurityEvent) :
    List CallbackEntry :=
  entries.filter (fun entry => event_matches_filter event entry)

/-!
## Supervisor watchdog (watchdog.c)

The monitor loop body is modelled as a step function on the watchdog
state.  Each iteration wakes from the timed condition wait and observes:
whether the subprocess is alive (is_suricata_running), whether a
relaunch attempt succeeds (start_suricata == 0), and whether the
watchdog is still commanded to run after the backoff sleep.
-/

/-- Watchdog states (vnids_watchdog_state_t). -/
inductive WatchdogState where
  | stopped
  | starting
  | running
  | restarting
  | failed
deriving Repr, DecidableEq

/-- Watchdog context fields that the monitor loop reads and writes. -/
structure Watchdog where
  state : WatchdogState
  restart_count : Nat
  max_restart_attempts : Nat
  auto_restart : Bool
deriving Repr, DecidableEq

/-- One observation consumed by a monitor-loop iteration. -/
structure MonitorObs where
  alive : Bool
  start_ok : Bool
  still_running : Bool
deriving Repr, DecidableEq

/-- One iteration of the watchdog monitor loop after the timed wait
(watchdog_thread, the body of the while loop). -/
def watchdog_step (wd : Watchdog) (obs : MonitorObs) : Watchdog :=
  if obs.alive then
    if wd.state = WatchdogState.running then { wd with restart_count := 0 } else wd
  else
    let wd :=
      if wd.state = WatchdogState.running then
        { wd with state := WatchdogState.stopped }
      else wd
    if wd.auto_restart ∧ wd.restart_count < wd.max_restart_attempts then
      let wd := { wd with
        state := WatchdogState.restarting,
        restart_count := wd.restart_count + 1 }
      if ¬obs.still_running then wd
      else if obs.start_ok then { wd with state := WatchdogState.running }
      else if wd.restart_count ≥ wd.max_restart_attempts then
        { wd with state := WatchdogState.failed }
      else wd
    else wd

/-- The initial launch performed by the monitor thread before its loop
(Starting, then Running or Failed according to start_suricata). -/
def watchdog_thread_init (max_attempts : Nat) (auto : Bool) (start_ok : Bool) : Watchdog :=
  { state := if start_ok then WatchdogState.running else WatchdogState.failed,
    restart_count := 0,
    max_restart_attempts := max_attempts,
    auto_restart := auto }

/-- Run the monitor loop over a list of observations. -/
def watchdog_run (wd : Watchdog) (trace : List MonitorObs) : Watchdog :=
  trace.foldl watchdog_step wd

/-!
## Bounded store (storage.c, SQLite-backed)

The events table is modelled as the list `rows` (a bag of rows; SQL
imposes no physical order, every query used by the daemon orders
explicitly).  The AUTOINCREMENT primary key `id` is the monotonically
assigned row ordinal.  The classification and interface columns are
never bound by the daemon's INSERT and are dropped from the model.
-/

/-- One persisted row of the events table, with the columns the daemon
binds on insert (INSERT_SQL). -/
structure StoredRow where
  id : Nat
  event_id : String
  timestamp : Int
  timestamp_usec : Nat
  event_type : Nat
  severity : Nat
  protocol : Nat
  src_ip : String
  src_port : Nat
  dst_ip : String
  dst_port : Nat
  signature_id : Nat
  signature_rev : Nat
  signature_msg : String
deriving Repr, DecidableEq

/-- The bind sequence of vnids_storage_insert_event: the event's fields
in column order, with the fresh AUTOINCREMENT ordinal. -/
def eventToRow (rowid : Nat) (e : SecurityEvent) : StoredRow :=
  { id := rowid,
    event_id := e.id,
    timestamp := e.ts_sec,
    timestamp_usec := e.ts_usec,
    event_type := e.event_type,
    severity := e.severity,
    protocol := e.protocol,
    src_ip := e.src_addr,
    src_port := e.src_port,
    dst_ip := e.dst_addr,
    dst_port := e.dst_port,
    signature_id := e.rule_sid,
    signature_rev := e.rule_gid,
    signature_msg := e.message }

/-- The column copy-out loop of vnids_storage_query_recent: each text
column is copied with strncpy into the fixed-size struct field, each
integer column through the C integer conversions of the assignments. -/
def rowToEvent (r : StoredRow) : SecurityEvent :=
  { id := String.mk (r.event_id.toList.take 36),
    ts_sec := r.timestamp,
    ts_usec := r.timestamp_usec,
    event_type := r.event_type,
    severity := r.severity,
    protocol := r.protocol,
    src_addr := String.mk (r.src_ip.toList.take 45),
    src_port := r.src_port % 65536,
    dst_addr := String.mk (r.dst_ip.toList.take 45),
    dst_port := r.dst_port % 65536,
    rule_sid := r.signature_id % 4294967296,
    rule_gid := r.signature_rev % 4294967296,
    message := String.mk (r.signature_msg.toList.take 255) }

/-- The ascending order of DELETE_OLD_SQL: ORDER BY timestamp ASC,
id ASC (oldest rows first). -/
def rowOlder (a b : StoredRow) : Prop :=
  a.timestamp < b.timestamp ∨ (a.timestamp = b.timestamp ∧ a.id ≤ b.id)

/-- The descending order of SELECT_RECENT_SQL: ORDER BY timestamp DESC,
id DESC (most recent rows first). -/
def rowNewer (a b : StoredRow) : Prop :=
  b.timestamp < a.timestamp ∨ (a.timestamp = b.timestamp ∧ b.id ≤ a.id)

instance : DecidableRel rowOlder := fun a b => by
  unfold rowOlder; exact inferInstance

instance : DecidableRel rowNewer := fun a b => by
  unfold rowNewer; exact inferInstance

instance : IsTotal StoredRow rowOlder :=
  ⟨by intro a b; unfold rowOlder; omega⟩

instance : IsTrans StoredRow rowOlder :=
  ⟨by intro a b c; unfold rowOlder; omega⟩

instance : IsTotal StoredRow rowNewer :=
  ⟨by intro a b; unfold rowNewer; omega⟩

instance : IsTrans StoredRow rowNewer :=
  ⟨by intro a b c; unfold rowNewer; omega⟩

/-- Storage state (vnids_storage_t) over an open database. -/
structure Storage where
  rows : List StoredRow
  next_rowid : Nat
  max_events : Nat
  cleanup_batch_size : Nat
  events_inserted : Nat
  events_deleted : Nat
deriving Repr, DecidableEq

/-- storage_cleanup_if_needed: when the row count exceeds max_events,
delete the count - max_events + batch rows that come first in the
(timestamp ASC, id ASC) order. -/
def storage_cleanup_if_needed (s : Storage) : Storage :=
  let count := s.rows.length
  if count ≤ s.max_events then s
  else
    let to_delete := count - s.max_events + s.cleanup_batch_size
    { s with
        rows := (List.insertionSort rowOlder s.rows).drop to_delete,
        events_deleted := s.events_deleted + min to_delete count }

/-- vnids_storage_insert_event: append the bound row, count the insert,
and run the periodic cleanup on every 1000th insert. -/
def vnids_storage_insert_event (s : Storage) (e : SecurityEvent) : Storage :=
  let row := eventToRow s.next_rowid e
  let s := { s with
    rows := s.rows ++ [row],
    next_rowid := s.next_rowid + 1,
    events_inserted := s.events_inserted + 1 }
  if s.events_inserted % 1000 = 0 then storage_cleanup_if_needed s else s

/-- vnids_storage_query_recent: rows in (timestamp DESC, id DESC) order,
LIMIT max_count, copied out into event structs. -/
def vnids_storage_query_recent (s : Storage) (max_count : Nat) : List SecurityEvent :=
  ((List.insertionSort rowNewer s.rows).take max_count).map rowToEvent

/-!
## Control plane (part_003 message serialization, watchdog.c control
dispatch, config.c API server)
-/

/- Control commands (vnids_command_t). -/

def VNIDS_CMD_RELOAD_RULES : Nat := 0
def VNIDS_CMD_GET_STATS : Nat := 1
def VNIDS_CMD_SET_CONFIG : Nat := 2
def VNIDS_CMD_SHUTDOWN : Nat := 3
def VNIDS_CMD_STATUS : Nat := 4
def VNIDS_CMD_LIST_RULES : Nat := 5
def VNIDS_CMD_LIST_EVENTS : Nat := 6
def VNIDS_CMD_VALIDATE_RULES : Nat := 7

/- IPC error codes (vnids_ipc_error_t). -/

def VNIDS_IPC_ERR_NONE : Nat := 0
def VNIDS_IPC_ERR_INVALID_COMMAND : Nat := 1
def VNIDS_IPC_ERR_INVALID_PARAMS : Nat := 2
def VNIDS_IPC_ERR_INVALID_CONFIG_KEY : Nat := 3
def VNIDS_IPC_ERR_RULE_PARSE : Nat := 4
def VNIDS_IPC_ERR_RESOURCE_EXHAUSTED : Nat := 5
def VNIDS_IPC_ERR_INTERNAL : Nat := 6
def VNIDS_IPC_ERR_SHUTDOWN_IN_PROGRESS : Nat := 7

/-- vnids_ipc_error_str. -/
def vnids_ipc_error_str (err : Nat) : String :=
  if err = VNIDS_IPC_ERR_NONE then "No error"
  else if err = VNIDS_IPC_ERR_INVALID_COMMAND then "Invalid command"
  else if err = VNIDS_IPC_ERR_INVALID_PARAMS then "Invalid parameters"
  else if err = VNIDS_IPC_ERR_INVALID_CONFIG_KEY then "Invalid config key"
  else if err = VNIDS_IPC_ERR_RULE_PARSE then "Rule parse error"
  else if err = VNIDS_IPC_ERR_RESOURCE_EXHAUSTED then "Resource exhausted"
  else if err = VNIDS_IPC_ERR_INTERNAL then "Internal error"
  else if err = VNIDS_IPC_ERR_SHUTDOWN_IN_PROGRESS then "Shutdown in progress"
  else "Unknown error"

/-- The response JSON built by vnids_response_to_json (and by
vnids_status_response for the status command), modelled as its fields
rather than its serialized text. -/
structure IpcResponse where
  success : Bool
  error_code : Nat
  message : Option String := none
  data : Option Json := none
deriving Repr

/-- vnids_response_to_json. -/
def vnids_response_to_json (error : Nat) (message : Option String)
    (data : Option Json) : IpcResponse :=
  { success := error = VNIDS_IPC_ERR_NONE,
    error_code := error,
    message := message,
    data := data }

/-- vnids_request_from_json on an already well-formed JSON document:
the command defaults to VNIDS_CMD_STATUS and is overridden only when
the command field is a string equal to one of the eight known command
names; the params field is passed through when present. -/
def vnids_request_from_json (root : Json) : Nat × Option Json :=
  let cmd :=
    match cJSON_GetObjectItem root "command" with
    | some (Json.jstr cmd_str) =>
        if cmd_str = "reload_rules" then VNIDS_CMD_RELOAD_RULES
        else if cmd_str = "get_stats" then VNIDS_CMD_GET_STATS
        else if cmd_str = "set_config" then VNIDS_CMD_SET_CONFIG
        else if cmd_str = "shutdown" then VNIDS_CMD_SHUTDOWN
        else if cmd_str = "status" then VNIDS_CMD_STATUS
        else if cmd_str = "list_rules" then VNIDS_CMD_LIST_RULES
        else if cmd_str = "list_events" then VNIDS_CMD_LIST_EVENTS
        else if cmd_str = "validate_rules" then VNIDS_CMD_VALIDATE_RULES
        else VNIDS_CMD_STATUS
    | _ => VNIDS_CMD_STATUS
  (cmd, cJSON_GetObjectItem root "params")

/-- The daemon-context facts the command handlers consult (the extern
vnidsd_* functions called from the control command file). -/
structure DaemonView where
  suricata_running : Bool
  uptime : Nat
  reload_result_ok : Bool
  stats_result_ok : Bool
  stats_json : Json
deriving Repr

/-- Control handler context (vnids_control_ctx_t) with its daemon
handle present, as created by vnids_control_create. -/
structure ControlCtx where
  daemon : DaemonView
  shutdown_requested : Bool
deriving Repr

/-- vnids_parse_config_param: the key must be a string; the value is
stringified when present, empty when absent. -/
def vnids_parse_config_param (params : Json) : Option (String × Json) :=
  match cJSON_GetObjectItem params "key" with
  | some (Json.jstr key) =>
      some (key, match cJSON_GetObjectItem params "value" with
        | some v => v
        | none => Json.jstr "")
  | _ => none

/-- The whitelisted configuration keys of handle_set_config. -/
def valid_config_keys : List String :=
  ["log_level", "eve_socket", "rules_dir", "max_events",
   "watchdog_interval", "stats_interval"]

/-- handle_set_config. -/
def handle_set_config (params : Option Json) : IpcResponse :=
  match params with
  | none => vnids_response_to_json VNIDS_IPC_ERR_INVALID_PARAMS
      (some "Missing parameters") none
  | some p =>
      match vnids_parse_config_param p with
      | none => vnids_response_to_json VNIDS_IPC_ERR_INVALID_PARAMS
          (some "Invalid parameter format") none
      | some (key, _) =>
          if valid_config_keys.contains key then
            vnids_response_to_json VNIDS_IPC_ERR_NONE
              (some "Configuration updated") none
          else
            vnids_response_to_json VNIDS_IPC_ERR_INVALID_CONFIG_KEY
              (some "Unknown configuration key") none

/-- handle_status: vnids_status_response with the daemon liveness. -/
def handle_status (ctx : ControlCtx) : IpcResponse :=
  let status :=
    if ctx.shutdown_requested then "shutting_down"
    else if ctx.daemon.suricata_running then "running"
    else "degraded"
  { success := true,
    error_code := 0,
    data := some (Json.jobj
      [("status", Json.jstr status),
       ("version", Json.jstr "1.0.0"),
       ("uptime", Json.jnum ctx.daemon.uptime),
       ("suricata_running", Json.jbool ctx.daemon.suricata_running)]) }

/-- handle_reload_rules. -/
def handle_reload_rules (ctx : ControlCtx) : IpcResponse :=
  if ctx.daemon.reload_result_ok then
    vnids_response_to_json VNIDS_IPC_ERR_NONE
      (some "Rules reloaded successfully") none
  else
    vnids_response_to_json VNIDS_IPC_ERR_INTERNAL none none

/-- handle_get_stats. -/
def handle_get_stats (ctx : ControlCtx) : IpcResponse :=
  if ctx.daemon.stats_result_ok then
    vnids_response_to_json VNIDS_IPC_ERR_NONE none (some ctx.daemon.stats_json)
  else
    vnids_response_to_json VNIDS_IPC_ERR_INTERNAL none none

/-- handle_shutdown: flags the shutdown and answers success. -/
def handle_shutdown (ctx : ControlCtx) : ControlCtx × IpcResponse :=
  ({ ctx with shutdown_requested := true },
   vnids_response_to_json VNIDS_IPC_ERR_NONE (some "Shutdown initiated") none)

/-- vnids_control_process: dispatch one decoded command; the first
component is the (possibly updated) control context.  The default
branch answers invalid_command for any value outside the eight command
enum constants. -/
def vnids_control_process (ctx : ControlCtx) (cmd : Nat) (params : Option Json) :
    ControlCtx × IpcResponse :=
  if cmd = VNIDS_CMD_RELOAD_RULES then (ctx, handle_reload_rules ctx)
  else if cmd = VNIDS_CMD_GET_STATS then (ctx, handle_get_stats ctx)
  else if cmd = VNIDS_CMD_SET_CONFIG then (ctx, handle_set_config params)
  else if cmd = VNIDS_CMD_SHUTDOWN then handle_shutdown ctx
  else if cmd = VNIDS_CMD_STATUS then (ctx, handle_status ctx)
  else if cmd = VNIDS_CMD_LIST_RULES then
    (ctx, vnids_response_to_json VNIDS_IPC_ERR_NONE
      (some "Rule listing not yet implemented") none)
  else if cmd = VNIDS_CMD_LIST_EVENTS then
    (ctx, vnids_response_to_json VNIDS_IPC_ERR_NONE
      (some "Event listing not yet implemented") none)
  else if cmd = VNIDS_CMD_VALIDATE_RULES then
    (ctx, vnids_response_to_json VNIDS_IPC_ERR_NONE
      (some "Rule validation not yet implemented") none)
  else
    (ctx, vnids_response_to_json VNIDS_IPC_ERR_INVALID_COMMAND
      (some "Unknown command") none)

/-!
## EVE reader line handling (eve_reader.c)
-/

/-- The ingest worker's per-thread counters and latest stats slot. -/
structure ReaderState where
  events_read : Nat := 0
  events_parsed : Nat := 0
  events_queued : Nat := 0
  parse_errors : Nat := 0
  latest_stats : SuricataStats := {}
deriving Repr, DecidableEq

/-- The body of the read loop of eve_reader_thread for one complete
line: try the line as a stats event first; otherwise parse it as a
security event and push it, counting a parse error on failure. -/
def eve_reader_handle_line (r : ReaderState) (q : EventQueue) (line : Json) :
    ReaderState × EventQueue :=
  let r := { r with events_read := r.events_read + 1 }
  match vnids_eve_parse_stats line with
  | some stats => ({ r with latest_stats := stats }, q)
  | none =>
      match vnids_eve_parse line with
      | some event =>
          let r := { r with events_parsed := r.events_parsed + 1 }
          let (q, rc) := vnids_event_queue_push q event
          if rc = 0 then ({ r with events_queued := r.events_queued + 1 }, q)
          else (r, q)
      | none => ({ r with parse_errors := r.parse_errors + 1 }, q)

/-!
## API server framing (config.c, API server part)

handle_client_data accumulates received bytes in the per-client staging
buffer and then runs the framing loop below over it.  cJSON_Parse of the
extracted body is abstracted as the decode parameter: the loop itself
never inspects body bytes.
-/

/-- API_BUFFER_SIZE: the fixed per-client staging buffer. -/
def API_BUFFER_SIZE : Nat := 65536

/-- Big-endian 32-bit length of the 4 prefix bytes (ntohl of the
memcpy'd prefix). -/
def ntohl_bytes (b0 b1 b2 b3 : Nat) : Nat :=
  ((b0 * 256 + b1) * 256 + b2) * 256 + b3

/-- What send_response wrote for one processed request: either the
serialized control response, or the literal invalid-request error body
when the request JSON did not parse. -/
inductive SentMsg where
  | response (r : IpcResponse)
  | invalidRequest
deriving Repr

/-- process_request on one extracted message body.  Returns the updated
control context, the bytes written back, and the deltas of the errors
and requests_processed counters. -/
def process_request (decode : List Nat → Option Json) (ctx : ControlCtx)
    (body : List Nat) : ControlCtx × SentMsg × Nat × Nat :=
  match decode body with
  | none => (ctx, SentMsg.invalidRequest, 1, 0)
  | some root =>
      let (cmd, params) := vnids_request_from_json root
      let (ctx, resp) := vnids_control_process ctx cmd params
      (ctx, SentMsg.response resp, 0, 1)

/-- Result of running the framing loop of handle_client_data over the
staging buffer. -/
structure ApiLoopResult where
  sent : List SentMsg
  errors_delta : Nat
  requests_delta : Nat
  closed : Bool
  remaining : List Nat
  ctx : ControlCtx
deriving Repr

/-- The while loop of handle_client_data over complete length-prefixed
messages: a declared length over API_BUFFER_SIZE - 4 closes the session
at once (nothing written, no counter change); an incomplete message
waits for more data; a complete one is dispatched and the buffer
shifted. -/
def api_process_buffer (decode : List Nat → Option Json) (ctx : ControlCtx) :
    List Nat → ApiLoopResult
  | b0 :: b1 :: b2 :: b3 :: rest =>
      let msg_len := ntohl_bytes b0 b1 b2 b3
      if msg_len > API_BUFFER_SIZE - 4 then
        { sent := [], errors_delta := 0, requests_delta := 0, closed := true,
          remaining := b0 :: b1 :: b2 :: b3 :: rest, ctx := ctx }
      else if rest.length < msg_len then
        { sent := [], errors_delta := 0, requests_delta := 0, closed := false,
          remaining := b0 :: b1 :: b2 :: b3 :: rest, ctx := ctx }
      else
        let body := rest.take msg_len
        let step := process_request decode ctx body
        let tail_result := api_process_buffer decode step.1 (rest.drop msg_len)
        { sent := step.2.1 :: tail_result.sent,
          errors_delta := step.2.2.1 + tail_result.errors_delta,
          requests_delta := step.2.2.2 + tail_result.requests_delta,
          closed := tail_result.closed,
          remaining := tail_result.remaining,
          ctx := tail_result.ctx }
  | buf =>
      { sent := [], errors_delta := 0, requests_delta := 0, closed := false,
        remaining := buf, ctx := ctx }
termination_by buf => buf.length
decreasing_by
  simp [List.length_drop]
  omega

/-!
## Concrete instances used by witnesses and counterexamples
-/

/-- The monitor observation of a dead subprocess whose relaunch fails
while the watchdog keeps running. -/
def obsAllFail : MonitorObs :=
  { alive := false, start_ok := false, still_running := true }

/-- A daemon view with Suricata alive and all daemon calls succeeding. -/
def sampleDaemon : DaemonView :=
  { suricata_running := true, uptime := 42,
    reload_result_ok := true, stats_result_ok := true,
    stats_json := Json.jobj [] }

/-- A control context as created by vnids_control_create. -/
def sampleCtx : ControlCtx :=
  { daemon := sampleDaemon, shutdown_requested := false }

/-- A control request whose command string is not one of the eight
known commands. -/
def unknownCmdRequest : Json :=
  Json.jobj [("command", Json.jstr "frobnicate")]

/-- A decode oracle for buffers whose bodies are never inspected. -/
def nullDecode : List Nat → Option Json := fun _ => none

/-- An alert line whose alert subobject is empty (all optional alert
fields absent) and with no endpoint fields. -/
def bareAlertLine : Json :=
  Json.jobj [("event_type", Json.jstr "alert"), ("alert", Json.jobj [])]

/-- A line with an unrecognized event_type that still carries an alert
subobject. -/
def unknownTypeAlertLine : Json :=
  Json.jobj [("event_type", Json.jstr "netflow_custom"),
             ("alert", Json.jobj [("signature_id", Json.jnum 7)])]

/-- An accepted alert line with no proto and no app_proto field but a
SOME/IP subobject with a nonzero service id. -/
def someipAlertLine : Json :=
  Json.jobj [("event_type", Json.jstr "alert"), ("alert", Json.jobj []),
             ("someip", Json.jobj [("service_id", Json.jnum 5)])]

/-- A stored row with the given ordinal and timestamp, other fields
defaulted. -/
def sampleRow (rowid : Nat) (ts : Int) : StoredRow :=
  { id := rowid, event_id := "", timestamp := ts, timestamp_usec := 0,
    event_type := 0, severity := 2, protocol := 1,
    src_ip := "", src_port := 0, dst_ip := "", dst_port := 0,
    signature_id := 0, signature_rev := 1, signature_msg := "" }

/-- A storage state one insert away from its periodic cleanup check,
already over its cap. -/
def sampleStore : Storage :=
  { rows := [sampleRow 1 10, sampleRow 2 5, sampleRow 3 7],
    next_rowid := 4, max_events := 2, cleanup_batch_size := 1,
    events_inserted := 999, events_deleted := 0 }

/-- A full queue holding one event with capacity one. -/
def fullQueue : EventQueue :=
  { items := [{}], max_size := 1,
    enqueue_count := 1, dequeue_count := 0, drop_count := 0 }

/-- A line with an unrecognized event_type and no alert subobject. -/
def unknownTypeLine : Json := Json.jobj [("event_type", Json.jstr "netflow_custom")]

/-- An empty queue with the default capacity. -/
def emptyQueue : EventQueue :=
  { items := [], max_size := 4096, enqueue_count := 0, dequeue_count := 0, drop_count := 0 }

/-- The event that vnids_eve_parse produces from bareAlertLine. -/
def bareAlertParsed : SecurityEvent :=
  { severity := 4, protocol := 1, rule_gid := 1 }

/-!
## Theorems
-/

/-- get_int falls back to its default when the key is absent. -/
theorem get_int_of_none {obj : Json} {key : String} (dflt : Int)
    (h : cJSON_GetObjectItem obj key = none) :
    get_int obj key dflt = dflt := by
  unfold get_int
  rw [h]

/-- Claim C7: a push against a queue whose size counter has reached the
configured capacity is refused with -1, increments the dropped counter
by exactly one, and leaves the queue contents, size, capacity and the
other counters unchanged, retaining nothing of the refused payload. -/
theorem c7_push_full_refused (q : EventQueue) (e : SecurityEvent)
    (h : q.items.length ≥ q.max_size) :
    (vnids_event_queue_push q e).2 = -1 ∧
    (vnids_event_queue_push q e).1.items = q.items ∧
    (vnids_event_queue_push q e).1.drop_count = q.drop_count + 1 ∧
    (vnids_event_queue_push q e).1.items.length = q.items.length ∧
    (vnids_event_queue_push q e).1.enqueue_count = q.enqueue_count ∧
    (vnids_event_queue_push q e).1.dequeue_count = q.dequeue_count ∧
    (vnids_event_queue_push q e).1.max_size = q.max_size := by
  unfold vnids_event_queue_push
  simp [h]

/-- Witness for C7 at a concrete full queue. -/
theorem c7_push_full_refused_witness :
    fullQueue.items.length ≥ fullQueue.max_size ∧
    (vnids_event_queue_push fullQueue {}).2 = -1 ∧
    (vnids_event_queue_push fullQueue {}).1.items = fullQueue.items ∧
    (vnids_event_queue_push fullQueue {}).1.drop_count = fullQueue.drop_count + 1 :=
  ⟨by decide,
   (c7_push_full_refused fullQueue {} (by decide)).1,
   (c7_push_full_refused fullQueue {} (by decide)).2.1,
   (c7_push_full_refused fullQueue {} (by decide)).2.2.1⟩

/-- The matching predicate of event_matches_filter, spelled out. -/
theorem event_matches_filter_iff (event : SecurityEvent) (entry : CallbackEntry) :
    event_matches_filter event entry = true ↔
      ((entry.event_type_filter = 0 ∨ entry.event_type_filter = event.event_type) ∧
        event.severity ≤ entry.min_severity) := by
  unfold event_matches_filter
  repeat' split
  all_goals simp_all
  all_goals omega

/-- Claim C9: a registered callback entry is invoked on a dispatched
event exactly when its event-type filter is 0 or equal to the event's
type, and the event's severity enum value is at most the entry's
min_severity enum value (the lower value being the more severe). -/
theorem c9_callback_invoked_iff (entries : List CallbackEntry)
    (event : SecurityEvent) (entry : CallbackEntry) :
    entry ∈ dispatch_to_callbacks entries event ↔
      (entry ∈ entries ∧
        (entry.event_type_filter = 0 ∨ entry.event_type_filter = event.event_type) ∧
        event.severity ≤ entry.min_severity) := by
  unfold dispatch_to_callbacks
  rw [List.mem_filter]
  rw [event_matches_filter_iff]

/-- A monitor iteration never changes the configured maximum. -/
theorem watchdog_step_max (wd : Watchdog) (obs : MonitorObs) :
    (watchdog_step wd obs).max_restart_attempts = wd.max_restart_attempts := by
  unfold watchdog_step
  repeat' split
  all_goals simp [apply_ite Watchdog.max_restart_attempts]

/-- A monitor iteration keeps the restart counter at or below the
configured maximum: it only ever increments under the counter guard. -/
theorem watchdog_step_count (wd : Watchdog) (obs : MonitorObs)
    (h : wd.restart_count ≤ wd.max_restart_attempts) :
    (watchdog_step wd obs).restart_count ≤ wd.max_restart_attempts := by
  unfold watchdog_step
  repeat' split
  all_goals simp_all [apply_ite Watchdog.restart_count]
  all_goals (repeat' split)
  all_goals omega

/-- The restart-counter bound is preserved by any run of the monitor
loop. -/
theorem watchdog_run_count (wd : Watchdog) (trace : List MonitorObs)
    (h : wd.restart_count ≤ wd.max_restart_attempts) :
    (watchdog_run wd trace).restart_count ≤ (watchdog_run wd trace).max_restart_attempts := by
  induction trace generalizing wd with
  | nil => simpa [watchdog_run] using h
  | cons obs rest ih =>
      have h1 : (watchdog_step wd obs).restart_count ≤
          (watchdog_step wd obs).max_restart_attempts := by
        rw [watchdog_step_max]
        exact watchdog_step_count wd obs h
      simpa [watchdog_run, List.foldl_cons] using ih (watchdog_step wd obs) h1

/-- The all-fail iteration on a Restarting state below the cap. -/
theorem watchdog_step_fail_restarting (maxA c : Nat) (hc : c < maxA) :
    watchdog_step
        { state := WatchdogState.restarting, restart_count := c,
          max_restart_attempts := maxA, auto_restart := true } obsAllFail =
      if maxA ≤ c + 1 then
        { state := WatchdogState.failed, restart_count := c + 1,
          max_restart_attempts := maxA, auto_restart := true }
      else
        { state := WatchdogState.restarting, restart_count := c + 1,
          max_restart_attempts := maxA, auto_restart := true } := by
  unfold watchdog_step obsAllFail
  simp [hc]

/-- The all-fail iteration on a Running state with a zero counter. -/
theorem watchdog_step_fail_running (maxA : Nat) (h0 : 0 < maxA) :
    watchdog_step
        { state := WatchdogState.running, restart_count := 0,
          max_restart_attempts := maxA, auto_restart := true } obsAllFail =
      if maxA ≤ 1 then
        { state := WatchdogState.failed, restart_count := 1,
          max_restart_attempts := maxA, auto_restart := true }
      else
        { state := WatchdogState.restarting, restart_count := 1,
          max_restart_attempts := maxA, auto_restart := true } := by
  unfold watchdog_step obsAllFail
  simp [h0]

/-- Running the monitor loop from Restarting with k more failed
relaunches remaining to reach the cap ends in the Failed state with the
counter at the cap. -/
theorem watchdog_run_fail_from_restarting (maxA c k : Nat)
    (hk : 1 ≤ k) (hck : c + k = maxA) :
    watchdog_run
        { state := WatchdogState.restarting, restart_count := c,
          max_restart_attempts := maxA, auto_restart := true }
        (List.replicate k obsAllFail) =
      { state := WatchdogState.failed, restart_count := maxA,
        max_restart_attempts := maxA, auto_restart := true } := by
  induction k generalizing c with
  | zero => omega
  | succ k ih =>
      rw [List.replicate_succ]
      unfold watchdog_run
      rw [List.foldl_cons]
      rw [watchdog_step_fail_restarting maxA c (by omega)]
      by_cases hk0 : k = 0
      · subst hk0
        have : maxA ≤ c + 1 := by omega
        simp [this, watchdog_run]
        omega
      · have : ¬ maxA ≤ c + 1 := by omega
        simp only [this, if_false]
        exact ih (c + 1) (by omega) (by omega)

/-- Claim C3: (1) from any state whose restart counter respects the
configured cap, every run of the supervisor monitor loop keeps
restart_count at most max_restart_attempts; (2) starting from Running
with a zero counter, the death of the subprocess followed by
max_restart_attempts consecutive failed relaunches (the (max+1)-th
consecutive subprocess failure being the last failed relaunch) leaves
the supervisor in the Failed state. -/
theorem c3_supervisor_restart_bound :
    (∀ (wd : Watchdog) (trace : List MonitorObs),
        wd.restart_count ≤ wd.max_restart_attempts →
        (watchdog_run wd trace).restart_count ≤
          (watchdog_run wd trace).max_restart_attempts) ∧
    (∀ maxA : Nat, 1 ≤ maxA →
        watchdog_run
            { state := WatchdogState.running, restart_count := 0,
              max_restart_attempts := maxA, auto_restart := true }
            (List.replicate maxA obsAllFail) =
          { state := WatchdogState.failed, restart_count := maxA,
            max_restart_attempts := maxA, auto_restart := true }) := by
  constructor
  · exact watchdog_run_count
  · intro maxA hmax
    obtain ⟨k, hk⟩ : ∃ k, maxA = k + 1 := ⟨maxA - 1, by omega⟩
    subst hk
    rw [List.replicate_succ]
    unfold watchdog_run
    rw [List.foldl_cons]
    rw [watchdog_step_fail_running (k + 1) (by omega)]
    by_cases hk0 : k = 0
    · subst hk0
      simp [watchdog_run]
    · have : ¬ k + 1 ≤ 1 := by omega
      simp only [this, if_false]
      exact watchdog_run_fail_from_restarting (k + 1) 1 k (by omega) (by omega)

/-- Witness for C3 at max_restart_attempts = 5 with a concrete trace. -/
theorem c3_supervisor_restart_bound_witness :
    ((watchdog_thread_init 5 true true).restart_count ≤
        (watchdog_thread_init 5 true true).max_restart_attempts) ∧
    (watchdog_run (watchdog_thread_init 5 true true)
        (List.replicate 3 obsAllFail)).restart_count ≤
      (watchdog_run (watchdog_thread_init 5 true true)
        (List.replicate 3 obsAllFail)).max_restart_attempts ∧
    watchdog_run
        { state := WatchdogState.running, restart_count := 0,
          max_restart_attempts := 5, auto_restart := true }
        (List.replicate 5 obsAllFail) =
      { state := WatchdogState.failed, restart_count := 5,
        max_restart_attempts := 5, auto_restart := true } :=
  ⟨by decide,
   c3_supervisor_restart_bound.1 (watchdog_thread_init 5 true true)
     (List.replicate 3 obsAllFail) (by decide),
   c3_supervisor_restart_bound.2 5 (by decide)⟩

/-- After the cleanup check, the store never holds more than its cap:
either the count was already within the cap, or the eviction removed
count - cap + batch rows. -/
theorem storage_cleanup_bounded (s : Storage) :
    (storage_cleanup_if_needed s).rows.length ≤ s.max_events := by
  unfold storage_cleanup_if_needed
  dsimp only
  split
  · next h => simpa using h
  · next h =>
      simp [List.length_drop, List.length_insertionSort]
      omega

/-- When the cleanup evicts, every evicted row precedes every kept row
in the (timestamp ASC, id ASC) order: the eviction removes the
lowest-ordered rows. -/
theorem storage_cleanup_evicts_oldest (s : Storage)
    (h : s.max_events < s.rows.length) :
    ∀ d ∈ (List.insertionSort rowOlder s.rows).take
        (s.rows.length - s.max_events + s.cleanup_batch_size),
      ∀ k ∈ (storage_cleanup_if_needed s).rows, rowOlder d k := by
  have hs : List.Sorted rowOlder (List.insertionSort rowOlder s.rows) :=
    List.sorted_insertionSort rowOlder s.rows
  rw [← List.take_append_drop
    (s.rows.length - s.max_events + s.cleanup_batch_size)
    (List.insertionSort rowOlder s.rows)] at hs
  have hcross := (List.pairwise_append.mp hs).2.2
  unfold storage_cleanup_if_needed
  have hnot : ¬ s.rows.length ≤ s.max_events := by omega
  simp only [hnot, if_false]
  exact hcross

/-- Claim C6: (1) after any run of the periodic cleanup check the store
holds at most cap rows; (2) when the check finds the count above the
cap, the evicted rows are exactly a set of lowest-ordered rows (every
evicted row precedes every kept row in (timestamp ASC, ordinal ASC)
order); (3) an insert that lands on the periodic check (every 1000th
successful insert) leaves the store with at most cap rows. -/
theorem c6_store_bounded_after_check :
    (∀ s : Storage, (storage_cleanup_if_needed s).rows.length ≤ s.max_events) ∧
    (∀ s : Storage, s.max_events < s.rows.length →
      ∀ d ∈ (List.insertionSort rowOlder s.rows).take
          (s.rows.length - s.max_events + s.cleanup_batch_size),
        ∀ k ∈ (storage_cleanup_if_needed s).rows, rowOlder d k) ∧
    (∀ (s : Storage) (e : SecurityEvent), (s.events_inserted + 1) % 1000 = 0 →
      (vnids_storage_insert_event s e).rows.length ≤ s.max_events) := by
  refine ⟨storage_cleanup_bounded, storage_cleanup_evicts_oldest, ?_⟩
  intro s e h
  unfold vnids_storage_insert_event
  simp only [h, if_true]
  exact storage_cleanup_bounded _

/-- Witness for C6 at a concrete store that is over its cap on its
1000th insert. -/
theorem c6_store_bounded_after_check_witness :
    ((sampleStore.events_inserted + 1) % 1000 = 0 ∧
      (vnids_storage_insert_event sampleStore {}).rows.length ≤ sampleStore.max_events) ∧
    (sampleStore.max_events < sampleStore.rows.length ∧
      ∀ d ∈ (List.insertionSort rowOlder sampleStore.rows).take
          (sampleStore.rows.length - sampleStore.max_events + sampleStore.cleanup_batch_size),
        ∀ k ∈ (storage_cleanup_if_needed sampleStore).rows, rowOlder d k) ∧
    (storage_cleanup_if_needed sampleStore).rows.length ≤ sampleStore.max_events :=
  ⟨⟨by decide, c6_store_bounded_after_check.2.2 sampleStore {} (by decide)⟩,
   ⟨by decide, c6_store_bounded_after_check.2.1 sampleStore (by decide)⟩,
   c6_store_bounded_after_check.1 sampleStore⟩

/-- Claim C8: query_recent returns the image of a list of stored rows
that is sorted by (timestamp DESC, ordinal DESC), has exactly
min(n, count) entries (hence at most that many), and whose entries are
rows of the store copied out field by field. -/
theorem c8_query_recent_ordered (s : Storage) (n : Nat) :
    ∃ rs : List StoredRow,
      vnids_storage_query_recent s n = rs.map rowToEvent ∧
      List.Sorted rowNewer rs ∧
      rs.length = min n s.rows.length ∧
      ∀ r ∈ rs, r ∈ s.rows := by
  refine ⟨(List.insertionSort rowNewer s.rows).take n, rfl, ?_, ?_, ?_⟩
  · exact List.Pairwise.sublist (List.take_sublist n _)
      (List.sorted_insertionSort rowNewer s.rows)
  · rw [List.length_take, List.length_insertionSort]
  · intro r hr
    exact (List.mem_insertionSort rowNewer).mp (List.mem_of_mem_take hr)

/-- vnids_eve_parse is the core dispatch applied to some timestamp-
initialized base event. -/
theorem eve_parse_exists_base (root : Json) :
    ∃ base : SecurityEvent, vnids_eve_parse root = vnids_eve_parse_core root base := by
  unfold vnids_eve_parse
  exact ⟨_, rfl⟩

/-- On an alert line whose optional fields are all absent, the core
parse succeeds with the source defaults: sid 0, gid 1, severity Low,
empty strings and zero ports. -/
theorem core_alert_defaults (root alert : Json) (base : SecurityEvent)
    (hty : get_string root "event_type" = some "alert")
    (halert : cJSON_GetObjectItem root "alert" = some alert)
    (hsid : cJSON_GetObjectItem alert "signature_id" = none)
    (hgid : cJSON_GetObjectItem alert "gid" = none)
    (hsev : cJSON_GetObjectItem alert "severity" = none)
    (hsig : get_string alert "signature" = none)
    (hsrc : get_string root "src_ip" = none)
    (hdst : get_string root "dest_ip" = none)
    (hsp : cJSON_GetObjectItem root "src_port" = none)
    (hdp : cJSON_GetObjectItem root "dest_port" = none) :
    ∃ ev, vnids_eve_parse_core root base = some ev ∧
      ev.rule_sid = 0 ∧ ev.rule_gid = 1 ∧ ev.severity = VNIDS_SEVERITY_LOW ∧
      ev.message = "" ∧ ev.src_addr = "" ∧ ev.dst_addr = "" ∧
      ev.src_port = 0 ∧ ev.dst_port = 0 := by
  have e1 : get_int alert "signature_id" 0 = 0 := get_int_of_none 0 hsid
  have e2 : get_int alert "gid" 1 = 1 := get_int_of_none 1 hgid
  have e3 : get_int alert "severity" 4 = 4 := get_int_of_none 4 hsev
  have e4 : get_int root "src_port" 0 = 0 := get_int_of_none 0 hsp
  have e5 : get_int root "dest_port" 0 = 0 := get_int_of_none 0 hdp
  unfold vnids_eve_parse_core
  rw [hty]
  dsimp only
  unfold eve_parse_dispatch
  rw [if_pos rfl]
  unfold parse_alert_event parse_flow_fields
  rw [halert]
  dsimp only
  rw [e1, e2, e3, e4, e5, hsig, hsrc, hdst]
  unfold eve_parse_promote
  dsimp only
  split <;> split <;>
    exact ⟨_, rfl, by simp [cast_u32, cast_u16, safe_strcpy, parse_severity,
      VNIDS_SEVERITY_LOW]⟩

/-- Claim C4 (amended): parsing a syntactically valid alert line whose
optional fields are all absent yields the source defaults in the Event
Record: signature_id 0, gid 1 (not 0), severity Low (the priority-4
mapping, not 0), empty signature message, empty addresses and zero
ports. -/
theorem c4_alert_missing_fields_defaults (root alert : Json)
    (hty : get_string root "event_type" = some "alert")
    (halert : cJSON_GetObjectItem root "alert" = some alert)
    (hsid : cJSON_GetObjectItem alert "signature_id" = none)
    (hgid : cJSON_GetObjectItem alert "gid" = none)
    (hsev : cJSON_GetObjectItem alert "severity" = none)
    (hsig : get_string alert "signature" = none)
    (hsrc : get_string root "src_ip" = none)
    (hdst : get_string root "dest_ip" = none)
    (hsp : cJSON_GetObjectItem root "src_port" = none)
    (hdp : cJSON_GetObjectItem root "dest_port" = none) :
    ∃ ev, vnids_eve_parse root = some ev ∧
      ev.rule_sid = 0 ∧ ev.rule_gid = 1 ∧ ev.severity = VNIDS_SEVERITY_LOW ∧
      ev.message = "" ∧ ev.src_addr = "" ∧ ev.dst_addr = "" ∧
      ev.src_port = 0 ∧ ev.dst_port = 0 := by
  obtain ⟨base, hb⟩ := eve_parse_exists_base root
  rw [hb]
  exact core_alert_defaults root alert base hty halert hsid hgid hsev hsig hsrc hdst hsp hdp

/-- Counterexample to C4 as stated: on an alert line with an empty
alert subobject, the parsed gid is 1 and the severity is Low (enum
value 4), not 0 as the claim requires of all listed fields. -/
theorem c4_counterexample :
    (vnids_eve_parse bareAlertLine).map SecurityEvent.rule_gid = some 1 ∧
    (vnids_eve_parse bareAlertLine).map SecurityEvent.severity = some VNIDS_SEVERITY_LOW ∧
    (vnids_eve_parse bareAlertLine).map SecurityEvent.rule_gid ≠ some 0 :=
  ⟨rfl, rfl, by decide⟩

/-- Witness for C4 at the concrete bare alert line. -/
theorem c4_witness :
    get_string bareAlertLine "event_type" = some "alert" ∧
    cJSON_GetObjectItem bareAlertLine "alert" = some (Json.jobj []) ∧
    (∃ ev, vnids_eve_parse bareAlertLine = some ev ∧
      ev.rule_sid = 0 ∧ ev.rule_gid = 1 ∧ ev.severity = VNIDS_SEVERITY_LOW ∧
      ev.message = "" ∧ ev.src_addr = "" ∧ ev.dst_addr = "" ∧
      ev.src_port = 0 ∧ ev.dst_port = 0) :=
  ⟨rfl, rfl,
   c4_alert_missing_fields_defaults bareAlertLine (Json.jobj [])
     rfl rfl rfl rfl rfl rfl rfl rfl rfl rfl⟩

/-- The stats parser rejects any line whose event_type is not the
string "stats". -/
theorem eve_parse_stats_not_stats (root : Json) (t : String)
    (hty : get_string root "event_type" = some t) (h : t ≠ "stats") :
    vnids_eve_parse_stats root = none := by
  unfold vnids_eve_parse_stats
  rw [hty]
  simp [h]

/-- Claim C5 (amended): a line whose event_type is none of the
recognized types and which carries no alert subobject is rejected by
the event parser, and the ingest worker then counts exactly one parse
error and pushes nothing; a line with an unrecognized event_type but an
alert subobject is instead parsed as an alert (see the
counterexample). -/
theorem c5_unknown_type_dropped (root : Json) (t : String)
    (hty : get_string root "event_type" = some t)
    (h1 : t ≠ "alert") (h2 : t ≠ "anomaly") (h3 : t ≠ "flow") (h4 : t ≠ "stats")
    (halert : cJSON_GetObjectItem root "alert" = none)
    (r : ReaderState) (q : EventQueue) :
    vnids_eve_parse root = none ∧
    eve_reader_handle_line r q root =
      ({ r with events_read := r.events_read + 1,
                parse_errors := r.parse_errors + 1 }, q) := by
  have hparse : vnids_eve_parse root = none := by
    obtain ⟨base, hb⟩ := eve_parse_exists_base root
    rw [hb]
    unfold vnids_eve_parse_core
    rw [hty]
    dsimp only
    unfold eve_parse_dispatch
    rw [if_neg h1, if_neg h2, if_neg h3, if_neg h4, halert]
  refine ⟨hparse, ?_⟩
  unfold eve_reader_handle_line
  rw [eve_parse_stats_not_stats root t hty h4, hparse]

/-- Counterexample to C5 as stated: a line with the unrecognized
event_type "netflow_custom" but an alert subobject is parsed into an
Event Record, counted as parsed (not as a parse error) and pushed onto
the queue. -/
theorem c5_counterexample :
    get_string unknownTypeAlertLine "event_type" = some "netflow_custom" ∧
    (vnids_eve_parse unknownTypeAlertLine).isSome = true ∧
    (eve_reader_handle_line {} emptyQueue unknownTypeAlertLine).1.parse_errors = 0 ∧
    (eve_reader_handle_line {} emptyQueue unknownTypeAlertLine).1.events_parsed = 1 ∧
    (eve_reader_handle_line {} emptyQueue unknownTypeAlertLine).2.items.length = 1 :=
  ⟨rfl, rfl, rfl, rfl, rfl⟩

/-- Witness for C5 at a concrete alert-free line with an unrecognized
event_type. -/
theorem c5_witness :
    get_string unknownTypeLine "event_type" = some "netflow_custom" ∧
    cJSON_GetObjectItem unknownTypeLine "alert" = none ∧
    vnids_eve_parse unknownTypeLine = none ∧
    eve_reader_handle_line {} emptyQueue unknownTypeLine =
      ({ ({} : ReaderState) with events_read := 1, parse_errors := 1 }, emptyQueue) :=
  ⟨rfl, rfl,
   (c5_unknown_type_dropped unknownTypeLine "netflow_custom" rfl
     (by decide) (by decide) (by decide) (by decide) rfl {} emptyQueue).1,
   (c5_unknown_type_dropped unknownTypeLine "netflow_custom" rfl
     (by decide) (by decide) (by decide) (by decide) rfl {} emptyQueue).2⟩

/-- parse_flow_fields stores exactly the parse_protocol result in the
protocol discriminator. -/
theorem parse_flow_fields_protocol (root : Json) (ev : SecurityEvent) :
    (parse_flow_fields root ev).protocol =
      parse_protocol (get_string root "proto") (get_string root "app_proto") := rfl

/-- parse_alert_event does not touch the protocol discriminator. -/
theorem parse_alert_event_protocol (root : Json) (base ev : SecurityEvent)
    (h : parse_alert_event root base = some ev) : ev.protocol = base.protocol := by
  unfold parse_alert_event at h
  rcases hi : cJSON_GetObjectItem root "alert" with _ | alert <;> rw [hi] at h
  · simp at h
  · dsimp only at h
    injection h with h'
    subst h'
    rfl

/-- parse_anomaly_event does not touch the protocol discriminator. -/
theorem parse_anomaly_event_protocol (root : Json) (base : SecurityEvent) :
    (parse_anomaly_event root base).protocol = base.protocol := by
  unfold parse_anomaly_event
  rcases hi : cJSON_GetObjectItem root "anomaly" with _ | a <;> simp [hi]

/-- The event-type dispatch does not touch the protocol
discriminator of the flow-field event it receives. -/
theorem eve_parse_dispatch_protocol (root : Json) (t : String) (base ev : SecurityEvent)
    (h : eve_parse_dispatch root t base = some ev) : ev.protocol = base.protocol := by
  unfold eve_parse_dispatch at h
  split at h
  · exact parse_alert_event_protocol root base ev h
  · split at h
    · injection h with h'
      subst h'
      exact parse_anomaly_event_protocol root base
    · split at h
      · cases h
      · split at h
        · cases h
        · split at h
          · exact parse_alert_event_protocol root base ev h
          · cases h

/-- The promotion step only rewrites the protocol discriminator, DoIP
taking precedence over SOME/IP. -/
theorem eve_parse_promote_eq (root : Json) (ev : SecurityEvent) :
    eve_parse_promote root ev =
      { ev with protocol :=
          if (parse_doip_metadata root).payload_type ≠ 0 then VNIDS_PROTO_DOIP
          else if (parse_someip_metadata root).service_id ≠ 0 then VNIDS_PROTO_SOMEIP
          else ev.protocol } := by
  unfold eve_parse_promote
  dsimp only
  split <;> split <;> rfl

/-- The protocol of any accepted event: the metadata promotions where
they apply, the parse_protocol result otherwise. -/
theorem core_protocol (root : Json) (base ev : SecurityEvent)
    (h : vnids_eve_parse_core root base = some ev) :
    ev.protocol =
      if (parse_doip_metadata root).payload_type ≠ 0 then VNIDS_PROTO_DOIP
      else if (parse_someip_metadata root).service_id ≠ 0 then VNIDS_PROTO_SOMEIP
      else parse_protocol (get_string root "proto") (get_string root "app_proto") := by
  unfold vnids_eve_parse_core at h
  rcases hty : get_string root "event_type" with _ | t <;> rw [hty] at h
  · cases h
  · dsimp only at h
    rcases hd : eve_parse_dispatch root t (parse_flow_fields root base) with _ | ev1 <;>
      rw [hd] at h
    · cases h
    · injection h with h'
      subst h'
      rw [eve_parse_promote_eq]
      have hp := eve_parse_dispatch_protocol root t _ ev1 hd
      simp [hp, parse_flow_fields_protocol]

/-- The transport fallthrough always lands inside the protocol
enumeration and never on Unknown. -/
theorem parse_transport_mem (q : Option String) :
    parse_transport q ∈ protocolEnumValues ∧ parse_transport q ≠ VNIDS_PROTO_UNKNOWN := by
  unfold parse_transport
  rcases q with _ | s
  · decide
  · dsimp only
    repeat' split
    all_goals decide

/-- parse_protocol always lands inside the protocol enumeration and
never on Unknown. -/
theorem parse_protocol_mem (p a : Option String) :
    parse_protocol p a ∈ protocolEnumValues ∧ parse_protocol p a ≠ VNIDS_PROTO_UNKNOWN := by
  unfold parse_protocol
  rcases a with _ | s
  · exact parse_transport_mem p
  · dsimp only
    repeat' split
    all_goals first | decide | exact parse_transport_mem p

/-- When neither the app_proto nor the proto string is recognized (or
either is absent), parse_protocol defaults to TCP. -/
theorem parse_protocol_unrecognized (p a : Option String)
    (ha : ∀ s, a = some s → app_proto_recognized s = false)
    (hp : ∀ s, p = some s → transport_recognized s = false) :
    parse_protocol p a = VNIDS_PROTO_TCP := by
  unfold parse_protocol parse_transport
  rcases a with _ | s
  · rcases p with _ | ps
    · rfl
    · have hh := hp ps rfl
      unfold transport_recognized at hh
      simp only [Bool.or_eq_false_iff] at hh
      obtain ⟨⟨⟨t1, t2⟩, t3⟩, t4⟩ := hh
      simp [t1, t2, t3, t4]
  · have ga := ha s rfl
    unfold app_proto_recognized at ga
    simp only [Bool.or_eq_false_iff] at ga
    obtain ⟨⟨⟨⟨⟨⟨g1, g2⟩, g3⟩, g4⟩, g5⟩, g6⟩, g7⟩ := ga
    rcases p with _ | ps
    · simp [g1, g2, g3, g4, g5, g6, g7]
    · have hh := hp ps rfl
      unfold transport_recognized at hh
      simp only [Bool.or_eq_false_iff] at hh
      obtain ⟨⟨⟨t1, t2⟩, t3⟩, t4⟩ := hh
      simp [g1, g2, g3, g4, g5, g6, g7, t1, t2, t3, t4]

/-- Claim C10 (amended): an accepted event always carries a protocol
value inside the closed enumeration and never Unknown; when the
app_proto and proto fields are absent or unrecognized AND no SOME/IP or
DoIP metadata promotion fires, the protocol discriminator is TCP.  (As
stated the claim fails when a someip or doip subobject with a nonzero
key field is present: see the counterexample.) -/
theorem c10_protocol_default (root : Json) (ev : SecurityEvent)
    (h : vnids_eve_parse root = some ev) :
    (ev.protocol ∈ protocolEnumValues ∧ ev.protocol ≠ VNIDS_PROTO_UNKNOWN) ∧
    ((∀ s, get_string root "app_proto" = some s → app_proto_recognized s = false) →
      (∀ s, get_string root "proto" = some s → transport_recognized s = false) →
      (parse_someip_metadata root).service_id = 0 →
      (parse_doip_metadata root).payload_type = 0 →
      ev.protocol = VNIDS_PROTO_TCP) := by
  obtain ⟨base, hb⟩ := eve_parse_exists_base root
  rw [hb] at h
  have hcp := core_protocol root base ev h
  constructor
  · rw [hcp]
    split
    · decide
    · split
      · decide
      · exact parse_protocol_mem _ _
  · intro ha hp hsm hdm
    rw [hcp]
    simp only [hsm, hdm]
    simp only [ne_eq, not_true_eq_false, if_false]
    exact parse_protocol_unrecognized _ _ ha hp

/-- Counterexample to C10 as stated: an accepted alert line with no
app_proto and no proto field but a someip subobject with service_id 5
is parsed with protocol SOME/IP, not TCP. -/
theorem c10_counterexample :
    get_string someipAlertLine "app_proto" = none ∧
    get_string someipAlertLine "proto" = none ∧
    (vnids_eve_parse someipAlertLine).map SecurityEvent.protocol = some VNIDS_PROTO_SOMEIP ∧
    VNIDS_PROTO_SOMEIP ≠ VNIDS_PROTO_TCP :=
  ⟨rfl, rfl, rfl, by decide⟩

/-- Witness for C10 at the concrete bare alert line (no protocol
fields, no metadata subobjects). -/
theorem c10_witness :
    vnids_eve_parse bareAlertLine = some bareAlertParsed ∧
    (bareAlertParsed.protocol ∈ protocolEnumValues ∧
      bareAlertParsed.protocol ≠ VNIDS_PROTO_UNKNOWN) ∧
    bareAlertParsed.protocol = VNIDS_PROTO_TCP :=
  ⟨rfl,
   (c10_protocol_default bareAlertLine bareAlertParsed rfl).1,
   (c10_protocol_default bareAlertLine bareAlertParsed rfl).2
     (fun s hs => by
       rw [show get_string bareAlertLine "app_proto" = none from rfl] at hs
       exact Option.noConfusion hs)
     (fun s hs => by
       rw [show get_string bareAlertLine "proto" = none from rfl] at hs
       exact Option.noConfusion hs)
     rfl rfl⟩

/-- Claim C1 (code evaluation at the failing input): a request whose
command string is unknown is decoded to VNIDS_CMD_STATUS by
vnids_request_from_json, so vnids_control_process runs the status
handler and answers success with error_code 0 -- not the
invalid_command error response (code 1) that the claim and the repo's
IPC contract prescribe.  The invalid_command branch of the dispatcher
is unreachable through the JSON request path. -/
theorem c1_unknown_command_executes_status :
    vnids_request_from_json unknownCmdRequest = (VNIDS_CMD_STATUS, none) ∧
    (vnids_control_process sampleCtx (vnids_request_from_json unknownCmdRequest).1
        (vnids_request_from_json unknownCmdRequest).2).2 = handle_status sampleCtx ∧
    (vnids_control_process sampleCtx (vnids_request_from_json unknownCmdRequest).1
        (vnids_request_from_json unknownCmdRequest).2).2.success = true ∧
    (vnids_control_process sampleCtx (vnids_request_from_json unknownCmdRequest).1
        (vnids_request_from_json unknownCmdRequest).2).2.error_code = 0 ∧
    VNIDS_IPC_ERR_INVALID_COMMAND ≠ 0 :=
  ⟨rfl, rfl, rfl, rfl, by decide⟩

/-- Claim C2 (amended): a message whose declared big-endian length
prefix exceeds API_BUFFER_SIZE - 4 closes the client session with no
response bytes written -- and with the errors counter unchanged (the
claim's "errors increases by one" does not hold: see the
counterexample). -/
theorem c2_oversized_closes_silently (decode : List Nat → Option Json)
    (ctx : ControlCtx) (b0 b1 b2 b3 : Nat) (rest : List Nat)
    (h : ntohl_bytes b0 b1 b2 b3 > API_BUFFER_SIZE - 4) :
    api_process_buffer decode ctx (b0 :: b1 :: b2 :: b3 :: rest) =
      { sent := [], errors_delta := 0, requests_delta := 0, closed := true,
        remaining := b0 :: b1 :: b2 :: b3 :: rest, ctx := ctx } := by
  unfold api_process_buffer
  simp [h]

/-- Counterexample to C2 as stated: the oversized declared length
131072 closes the session and writes nothing, but the errors counter
does not increase by one (it is unchanged). -/
theorem c2_counterexample :
    ntohl_bytes 0 2 0 0 = 131072 ∧
    (api_process_buffer nullDecode sampleCtx [0, 2, 0, 0]).closed = true ∧
    (api_process_buffer nullDecode sampleCtx [0, 2, 0, 0]).sent = [] ∧
    (api_process_buffer nullDecode sampleCtx [0, 2, 0, 0]).errors_delta ≠ 1 := by
  refine ⟨by decide, ?_, ?_, ?_⟩ <;>
    · unfold api_process_buffer
      simp [ntohl_bytes, API_BUFFER_SIZE]

/-- Witness for C2 at the concrete oversized prefix 131072. -/
theorem c2_oversized_witness :
    ntohl_bytes 0 2 0 0 > API_BUFFER_SIZE - 4 ∧
    api_process_buffer nullDecode sampleCtx [0, 2, 0, 0] =
      { sent := [], errors_delta := 0, requests_delta := 0, closed := true,
        remaining := [0, 2, 0, 0], ctx := sampleCtx } :=
  ⟨by decide, c2_oversized_closes_silently nullDecode sampleCtx 0 2 0 0 [] (by decide)⟩

end Vnids
